import Mathlib

/-!
Verification development for the identity / authorization / tenant-isolation
core of the TabletsV2 backend.

The Python source is shallowly embedded here:
  * pure functions become Lean functions;
  * the SQLAlchemy stores (users, refresh tokens) and the in-memory rate
    limiter become explicit state (`AuthState`) threaded through the
    operations;
  * datetimes are integer Unix timestamps (seconds); `timedelta(minutes=m)`
    is `60 * m`, `timedelta(days=d)` is `86400 * d`;
  * exceptions become `Except` results carrying the exception's `message`
    and `code` exactly as constructed in `core/exceptions.py`;
  * JWTs are modelled as transparent claim records: every token value in
    the model corresponds to a token signed with the server secret, so
    `jwt.decode` signature checking always succeeds and only the expiry
    and type checks remain;
  * bcrypt hashing is modelled by an injective tagging function, and
    HMAC-SHA256 token hashing by the identity on claim records - the
    claims under verification depend only on match / mismatch;
  * `uuid.uuid4()` correlation-id freshness is modelled by a counter
    (`nextTokenId`) in the state.
-/

deriving instance DecidableEq for Except

/-! ## Settings (core/config.py defaults) -/

def ACCESS_TOKEN_EXPIRE_MINUTES : Int := 30
def REFRESH_TOKEN_EXPIRE_DAYS : Int := 30
def PASSWORD_MIN_LENGTH : Nat := 8
def LOGIN_RATE_LIMIT_ATTEMPTS : Nat := 5
def LOGIN_RATE_LIMIT_WINDOW_MINUTES : Int := 60

/-! ## Permission catalog (features/authorization/permissions.py) -/

/-- The `Permission` enum: all granular permissions, one constructor per
member of `class Permission` in `permissions.py`. -/
inductive Permission where
  | VIEW_USERS | CREATE_USERS | EDIT_USERS | DELETE_USERS
  | VIEW_COMPANIES | CREATE_COMPANIES | EDIT_COMPANIES | DELETE_COMPANIES
  | VIEW_PRODUCTS | CREATE_PRODUCTS | EDIT_PRODUCTS | DELETE_PRODUCTS
  | VIEW_INVOICES | CREATE_INVOICES | EDIT_INVOICES | DELETE_INVOICES
  | VIEW_PURCHASES | CREATE_PURCHASES | EDIT_PURCHASES | DELETE_PURCHASES
  | VIEW_WAREHOUSE | MANAGE_WAREHOUSE
  | VIEW_REPORTS | EXPORT_REPORTS | VIEW_FINANCIALS
  | VIEW_AUDIT_LOGS | VIEW_SYSTEM_SETTINGS | EDIT_SYSTEM_SETTINGS
deriving DecidableEq, Repr, Fintype

/-- String value of each permission (`Permission(str, enum.Enum)` values). -/
def Permission.value : Permission → String
  | .VIEW_USERS => "users.view"
  | .CREATE_USERS => "users.create"
  | .EDIT_USERS => "users.edit"
  | .DELETE_USERS => "users.delete"
  | .VIEW_COMPANIES => "companies.view"
  | .CREATE_COMPANIES => "companies.create"
  | .EDIT_COMPANIES => "companies.edit"
  | .DELETE_COMPANIES => "companies.delete"
  | .VIEW_PRODUCTS => "products.view"
  | .CREATE_PRODUCTS => "products.create"
  | .EDIT_PRODUCTS => "products.edit"
  | .DELETE_PRODUCTS => "products.delete"
  | .VIEW_INVOICES => "invoices.view"
  | .CREATE_INVOICES => "invoices.create"
  | .EDIT_INVOICES => "invoices.edit"
  | .DELETE_INVOICES => "invoices.delete"
  | .VIEW_PURCHASES => "purchases.view"
  | .CREATE_PURCHASES => "purchases.create"
  | .EDIT_PURCHASES => "purchases.edit"
  | .DELETE_PURCHASES => "purchases.delete"
  | .VIEW_WAREHOUSE => "warehouse.view"
  | .MANAGE_WAREHOUSE => "warehouse.manage"
  | .VIEW_REPORTS => "reports.view"
  | .EXPORT_REPORTS => "reports.export"
  | .VIEW_FINANCIALS => "financials.view"
  | .VIEW_AUDIT_LOGS => "audit.view"
  | .VIEW_SYSTEM_SETTINGS => "settings.view"
  | .EDIT_SYSTEM_SETTINGS => "settings.edit"

/-- Iteration order of the `Permission` enum (declaration order). -/
def Permission.members : List Permission :=
  [.VIEW_USERS, .CREATE_USERS, .EDIT_USERS, .DELETE_USERS,
   .VIEW_COMPANIES, .CREATE_COMPANIES, .EDIT_COMPANIES, .DELETE_COMPANIES,
   .VIEW_PRODUCTS, .CREATE_PRODUCTS, .EDIT_PRODUCTS, .DELETE_PRODUCTS,
   .VIEW_INVOICES, .CREATE_INVOICES, .EDIT_INVOICES, .DELETE_INVOICES,
   .VIEW_PURCHASES, .CREATE_PURCHASES, .EDIT_PURCHASES, .DELETE_PURCHASES,
   .VIEW_WAREHOUSE, .MANAGE_WAREHOUSE,
   .VIEW_REPORTS, .EXPORT_REPORTS, .VIEW_FINANCIALS,
   .VIEW_AUDIT_LOGS, .VIEW_SYSTEM_SETTINGS, .EDIT_SYSTEM_SETTINGS]

/-- `Permission(value)` lookup: the enum constructor whose value matches,
`none` when no member matches (Python raises `ValueError`). -/
def Permission.ofValue? (s : String) : Option Permission :=
  Permission.members.find? fun p => p.value == s

/-- The system `UserRole` enum (features/auth/models.py) used by
`AuthorizationService`. -/
inductive UserRole where
  | SYSTEM_ADMIN | COMPANY_ADMIN | USER
deriving DecidableEq, Repr, Fintype

/-- Modelled from the spec: the `CompanyRole` enum is imported by
`features/authorization/service.py` and `role_permissions.py` from
`features.authorization.permissions`, but its definition is absent from the
source tree; its six members are fixed by the keys of
`COMPANY_ROLE_PERMISSIONS` and the string values follow the company-level
role names used across the repository. -/
inductive CompanyRole where
  | ADMIN | ACCOUNTANT | SALES_MANAGER | WAREHOUSE_KEEPER | SALESPERSON | VIEWER
deriving DecidableEq, Repr, Fintype

/-- Modelled from the spec: string value of each `CompanyRole` member. -/
def CompanyRole.value : CompanyRole → String
  | .ADMIN => "company_admin"
  | .ACCOUNTANT => "accountant"
  | .SALES_MANAGER => "sales_manager"
  | .WAREHOUSE_KEEPER => "warehouse_keeper"
  | .SALESPERSON => "salesperson"
  | .VIEWER => "viewer"

/-- Iteration order of the `CompanyRole` enum (declaration order). -/
def CompanyRole.members : List CompanyRole :=
  [.ADMIN, .ACCOUNTANT, .SALES_MANAGER, .WAREHOUSE_KEEPER, .SALESPERSON, .VIEWER]

/-- `CompanyRole(role_str)`: parse a stored role string; `none` when no
member matches (Python raises `ValueError`, which the caller catches and
skips). -/
def CompanyRole.ofValue? (s : String) : Option CompanyRole :=
  CompanyRole.members.find? fun r => r.value == s

/-! ## Role -> permission mappings (features/authorization/role_permissions.py) -/

/-- `COMPANY_ROLE_PERMISSIONS` dict, transcribed entry by entry. -/
def COMPANY_ROLE_PERMISSIONS : CompanyRole → Finset Permission
  | .ADMIN =>
    { Permission.VIEW_USERS, Permission.EDIT_USERS,
      Permission.VIEW_PRODUCTS, Permission.CREATE_PRODUCTS,
      Permission.EDIT_PRODUCTS, Permission.DELETE_PRODUCTS,
      Permission.VIEW_INVOICES, Permission.CREATE_INVOICES,
      Permission.EDIT_INVOICES, Permission.DELETE_INVOICES,
      Permission.VIEW_PURCHASES, Permission.CREATE_PURCHASES,
      Permission.EDIT_PURCHASES, Permission.DELETE_PURCHASES,
      Permission.VIEW_WAREHOUSE, Permission.MANAGE_WAREHOUSE,
      Permission.VIEW_REPORTS, Permission.EXPORT_REPORTS,
      Permission.VIEW_FINANCIALS, Permission.VIEW_AUDIT_LOGS }
  | .ACCOUNTANT =>
    { Permission.VIEW_USERS,
      Permission.VIEW_PRODUCTS,
      Permission.VIEW_INVOICES, Permission.CREATE_INVOICES,
      Permission.EDIT_INVOICES,
      Permission.VIEW_PURCHASES, Permission.CREATE_PURCHASES,
      Permission.EDIT_PURCHASES,
      Permission.VIEW_WAREHOUSE,
      Permission.VIEW_REPORTS, Permission.EXPORT_REPORTS,
      Permission.VIEW_FINANCIALS }
  | .SALES_MANAGER =>
    { Permission.VIEW_USERS,
      Permission.VIEW_PRODUCTS, Permission.CREATE_PRODUCTS,
      Permission.EDIT_PRODUCTS,
      Permission.VIEW_INVOICES, Permission.CREATE_INVOICES,
      Permission.EDIT_INVOICES, Permission.DELETE_INVOICES,
      Permission.VIEW_WAREHOUSE,
      Permission.VIEW_REPORTS }
  | .WAREHOUSE_KEEPER =>
    { Permission.VIEW_PRODUCTS, Permission.CREATE_PRODUCTS,
      Permission.EDIT_PRODUCTS,
      Permission.VIEW_PURCHASES,
      Permission.VIEW_WAREHOUSE, Permission.MANAGE_WAREHOUSE,
      Permission.VIEW_REPORTS }
  | .SALESPERSON =>
    { Permission.VIEW_PRODUCTS,
      Permission.VIEW_INVOICES, Permission.CREATE_INVOICES,
      Permission.VIEW_WAREHOUSE }
  | .VIEWER =>
    { Permission.VIEW_USERS, Permission.VIEW_PRODUCTS,
      Permission.VIEW_INVOICES, Permission.VIEW_PURCHASES,
      Permission.VIEW_WAREHOUSE, Permission.VIEW_REPORTS }

/-- `SYSTEM_ROLE_PERMISSIONS` dict, transcribed entry by entry. -/
def SYSTEM_ROLE_PERMISSIONS : UserRole → Finset Permission
  | .SYSTEM_ADMIN =>
    { Permission.VIEW_USERS, Permission.CREATE_USERS,
      Permission.EDIT_USERS, Permission.DELETE_USERS,
      Permission.VIEW_COMPANIES, Permission.CREATE_COMPANIES,
      Permission.EDIT_COMPANIES, Permission.DELETE_COMPANIES,
      Permission.VIEW_PRODUCTS, Permission.CREATE_PRODUCTS,
      Permission.EDIT_PRODUCTS, Permission.DELETE_PRODUCTS,
      Permission.VIEW_INVOICES, Permission.CREATE_INVOICES,
      Permission.EDIT_INVOICES, Permission.DELETE_INVOICES,
      Permission.VIEW_PURCHASES, Permission.CREATE_PURCHASES,
      Permission.EDIT_PURCHASES, Permission.DELETE_PURCHASES,
      Permission.VIEW_WAREHOUSE, Permission.MANAGE_WAREHOUSE,
      Permission.VIEW_REPORTS, Permission.EXPORT_REPORTS,
      Permission.VIEW_FINANCIALS,
      Permission.VIEW_AUDIT_LOGS, Permission.VIEW_SYSTEM_SETTINGS,
      Permission.EDIT_SYSTEM_SETTINGS }
  | .COMPANY_ADMIN => ∅
  | .USER => ∅

/-- `get_permissions_for_company_role` (dict `.get` with default `set()`). -/
def get_permissions_for_company_role (role : CompanyRole) : Finset Permission :=
  COMPANY_ROLE_PERMISSIONS role

/-- `get_permissions_for_system_role` (dict `.get` with default `set()`). -/
def get_permissions_for_system_role (role : UserRole) : Finset Permission :=
  SYSTEM_ROLE_PERMISSIONS role

/-- `get_all_permissions_for_user`: system-role permissions unioned with the
permissions of every company role, via the source's accumulate-update loop. -/
def get_all_permissions_for_user (system_role : UserRole)
    (company_roles : List CompanyRole) : Finset Permission :=
  company_roles.foldl (fun acc r => acc ∪ get_permissions_for_company_role r)
    (get_permissions_for_system_role system_role)

/-! ## Data model (features/auth/models.py, features/company/models.py) -/

/-- The `Company` (tenant) model: the fields the core consults. -/
structure Company where
  id : Nat
  is_active : Bool
deriving DecidableEq, Repr

/-- The `User` model.  `company_roles` is the JSON list of role strings read
by `AuthorizationService._calculate_permissions`; `company` mirrors the ORM
relationship to the owning `Company` row. -/
structure User where
  id : Nat
  phone_number : String
  email : Option String := none
  hashed_password : String
  company_id : Option Nat := none
  role : UserRole := .USER
  company_roles : List String := []
  is_active : Bool := true
  is_phone_verified : Bool := false
  created_at : Int := 0
  updated_at : Int := 0
  last_login_at : Option Int := none
  company : Option Company := none
deriving DecidableEq, Repr

/-! ## Authorization engine (features/authorization/service.py) -/

/-- `AuthorizationService._calculate_permissions`: default-deny permission
resolution.  Null user and inactive user yield the empty set; otherwise the
stored company-role strings are parsed (invalid strings are skipped by the
`except ValueError: continue` loop, here `filterMap`) and aggregated with the
system role's permissions.  The company (tenant) record is never consulted. -/
def calculate_permissions (user : Option User) : Finset Permission :=
  match user with
  | none => ∅
  | some u =>
    if u.is_active = false then ∅
    else
      get_all_permissions_for_user u.role
        (u.company_roles.filterMap CompanyRole.ofValue?)

/-- `AuthorizationService.has_permission`: accepts a `Permission` or a raw
string; unresolvable strings are "not held", never an error. -/
def has_permission (user : Option User) (p : Permission ⊕ String) : Bool :=
  match p with
  | .inl perm => decide (perm ∈ calculate_permissions user)
  | .inr s =>
    match Permission.ofValue? s with
    | none => false
    | some perm => decide (perm ∈ calculate_permissions user)

/-- `AuthorizationService.has_any_permission`: Python `any(...)` over the
list. -/
def has_any_permission (user : Option User)
    (ps : List (Permission ⊕ String)) : Bool :=
  ps.any (has_permission user)

/-- `AuthorizationService.has_all_permissions`: Python `all(...)` over the
list. -/
def has_all_permissions (user : Option User)
    (ps : List (Permission ⊕ String)) : Bool :=
  ps.all (has_permission user)

/-- `AuthorizationService.is_system_admin`. -/
def is_system_admin (user : Option User) : Bool :=
  match user with
  | none => false
  | some u => u.role == UserRole.SYSTEM_ADMIN

/-! ## Phone normalization (core/security.py) -/

/-- Characters kept by the regex `[^\d+]` substitution: decimal digits and
the plus sign. -/
def phone_keep (c : Char) : Bool := c.isDigit || c == '+'

/-- `normalize_phone_number`: strip every character other than digits and
`+`; when nothing remains, return the input unchanged. -/
def normalize_phone_number (phone : String) : String :=
  let cleaned := phone.toList.filter phone_keep
  if cleaned.isEmpty then phone else String.mk cleaned

/-! ## Exceptions (core/exceptions.py) -/

/-- An `AppException` as surfaced to the caller: its `message`, its `code`,
and (for `RateLimitExceededException`) its `retry_after` field. -/
structure AppError where
  message : String
  code : String
  retry_after : Option Int := none
deriving DecidableEq, Repr

/-- `InvalidCredentialsException()` - fixed message and code. -/
def invalidCredentialsError : AppError :=
  { message := "Invalid phone number or password", code := "INVALID_CREDENTIALS" }

/-- `AccountDeactivatedException()`. -/
def accountDeactivatedError : AppError :=
  { message := "Account has been deactivated", code := "ACCOUNT_DEACTIVATED" }

/-- `InvalidTokenException(message)`. -/
def invalidTokenError (message : String := "Invalid or expired token") : AppError :=
  { message := message, code := "INVALID_TOKEN" }

/-- `TokenExpiredException()`. -/
def tokenExpiredError : AppError :=
  { message := "Token has expired", code := "TOKEN_EXPIRED" }

/-- `UserNotFoundException()`. -/
def userNotFoundError : AppError :=
  { message := "User not found", code := "USER_NOT_FOUND" }

/-- `RateLimitExceededException(retry_after)`. -/
def rateLimitExceededError (retryAfter : Int) : AppError :=
  { message := s!"Too many attempts. Try again in {retryAfter} seconds",
    code := "RATE_LIMIT_EXCEEDED", retry_after := some retryAfter }

/-- An `HTTPException` raised by the company-context layer. -/
structure HTTPError where
  status_code : Nat
  detail : String
deriving DecidableEq, Repr

/-- The 403 raised by `CompanyContext.ensure_company_access`. -/
def forbiddenError : HTTPError :=
  { status_code := 403,
    detail := "You don\x27t have permission to access this resource" }

/-- The 500 raised by `CompanyContext.__init__` on a non-admin user without
a company. -/
def companyConfigError : HTTPError :=
  { status_code := 500,
    detail := "User account configuration error. Contact administrator." }

/-! ## Tenant context (core/company_context.py) -/

/-- The `CompanyContext` object: the fields set by `__init__`. -/
structure CompanyContext where
  user : User
  company_id : Option Nat
  is_system_admin : Bool
deriving DecidableEq, Repr

/-- `CompanyContext.__init__`: derives the isolation policy from the user;
fails with a 500 when a non-admin user has no company (data corruption). -/
def CompanyContext.ofUser (user : User) : Except HTTPError CompanyContext :=
  let isAdmin := user.role == UserRole.SYSTEM_ADMIN
  if !isAdmin && user.company_id.isNone then
    .error companyConfigError
  else
    .ok { user := user, company_id := user.company_id, is_system_admin := isAdmin }

/-- `CompanyContext.should_filter`. -/
def CompanyContext.should_filter (ctx : CompanyContext) : Bool :=
  !ctx.is_system_admin

/-- `CompanyContext.ensure_company_access`: system admin always passes; a
regular user passes exactly when the resource's company id equals their own. -/
def CompanyContext.ensure_company_access (ctx : CompanyContext)
    (resource_company_id : Option Nat) : Except HTTPError Unit :=
  if ctx.is_system_admin then .ok ()
  else if resource_company_id != ctx.company_id then .error forbiddenError
  else .ok ()

/-! ## Password hashing (core/security.py) -/

/-- bcrypt `hash_password`, modelled as an injective tag; the verified
claims depend only on whether `verify_password` matches. -/
def hash_password (password : String) : String := "bcrypt$" ++ password

/-- bcrypt `verify_password` (`checkpw`). -/
def verify_password (plain hashed : String) : Bool := hashed == hash_password plain

/-! ## Tokens (core/security.py) -/

/-- The claim set of an access token produced by `create_access_token`. -/
structure AccessToken where
  user_id : Nat
  phone_number : String
  is_active : Bool
  company_id : Option Nat
  role : String
  iat : Int
  exp : Int
deriving DecidableEq, Repr

/-- The claim set of a refresh token produced by `create_refresh_token`.
Every value of this type corresponds to a token signed with the server
secret, so signature verification is not re-modelled. -/
structure RefreshTokenClaims where
  user_id : Nat
  token_id : Nat
  iat : Int
  exp : Int
deriving DecidableEq, Repr

/-- `create_access_token` with its Python default arguments
(`company_id=None`, `role="user"`), exactly as `_generate_token_pair`
invokes it. -/
def create_access_token (user_id : Nat) (phone_number : String)
    (is_active : Bool) (now : Int) : AccessToken :=
  { user_id := user_id, phone_number := phone_number, is_active := is_active,
    company_id := none, role := "user", iat := now,
    exp := now + 60 * ACCESS_TOKEN_EXPIRE_MINUTES }

/-- `create_refresh_token`: fresh `uuid4` correlation id (modelled by the
caller-supplied fresh counter value) and a long expiry. -/
def create_refresh_token (user_id : Nat) (token_id : Nat) (now : Int) :
    RefreshTokenClaims :=
  { user_id := user_id, token_id := token_id, iat := now,
    exp := now + 86400 * REFRESH_TOKEN_EXPIRE_DAYS }

/-- `hash_token` (HMAC-SHA256 of the raw token string), modelled as the
identity on claim records - injective, never inverted by the code. -/
def hash_token (token : RefreshTokenClaims) : RefreshTokenClaims := token

/-! ## Refresh session records (features/auth/models.py `RefreshToken`) -/

/-- One row of the `refresh_tokens` table. -/
structure RefreshTokenRecord where
  user_id : Nat
  token_id : Nat
  token_hash : RefreshTokenClaims
  expires_at : Int
  created_at : Int := 0
  revoked_at : Option Int := none
deriving DecidableEq, Repr

/-! ## Rate limiter (core/security.py `RateLimiter`) -/

/-- `RateLimiter.check_rate_limit` on one handle's attempt list: returns
`(some retry_after, stored)` when the limit is hit and `(none, stored)`
otherwise, where `stored` is what the limiter writes back (the cleaned
window, plus this attempt when it was admitted). -/
def check_rate_limit (attempts : List Int) (now : Int) : Option Int × List Int :=
  let windowStart := now - 60 * LOGIN_RATE_LIMIT_WINDOW_MINUTES
  let recent := attempts.filter fun ts => windowStart < ts
  if LOGIN_RATE_LIMIT_ATTEMPTS ≤ recent.length then
    let oldest := (recent.min?).getD 0
    (some (max (oldest - windowStart) 60), recent)
  else
    (none, recent ++ [now])

/-! ## Service state -/

/-- The mutable state the session manager operates on: the user store, the
refresh-token store, the in-memory rate-limiter map (handle -> attempt
timestamps), and the freshness counter standing in for `uuid4`. -/
structure AuthState where
  users : List User
  tokens : List RefreshTokenRecord
  attempts : List (String × List Int)
  nextTokenId : Nat
deriving DecidableEq, Repr

/-- Rate-limiter map lookup (`defaultdict(list)` read). -/
def lookupAttempts (m : List (String × List Int)) (k : String) : List Int :=
  match m.find? fun p => p.1 == k with
  | some p => p.2
  | none => []

/-- Rate-limiter map write. -/
def setAttempts (m : List (String × List Int)) (k : String) (v : List Int) :
    List (String × List Int) :=
  (k, v) :: m.filter fun p => p.1 != k

/-- `RateLimiter.reset`: delete the handle's entry. -/
def rate_limiter_reset (m : List (String × List Int)) (k : String) :
    List (String × List Int) :=
  m.filter fun p => p.1 != k

/-- `UserRepository.get_by_phone`. -/
def get_by_phone (users : List User) (phone : String) : Option User :=
  users.find? fun u => u.phone_number == phone

/-- `UserRepository.get_by_id`. -/
def get_by_id (users : List User) (uid : Nat) : Option User :=
  users.find? fun u => u.id == uid

/-- `RefreshTokenRepository.get_by_token_id`: the record with this
correlation id whose `revoked_at` is NULL. -/
def get_by_token_id (tokens : List RefreshTokenRecord) (tid : Nat) :
    Option RefreshTokenRecord :=
  tokens.find? fun r => r.token_id == tid && r.revoked_at.isNone

/-- The row update applied by `RefreshTokenRepository.revoke`. -/
def revokeRecord (tid : Nat) (now : Int) (r : RefreshTokenRecord) :
    RefreshTokenRecord :=
  if r.token_id == tid then { r with revoked_at := some now } else r

/-- `RefreshTokenRepository.revoke`: set `revoked_at` on every row with this
correlation id. -/
def revoke (st : AuthState) (tid : Nat) (now : Int) : AuthState :=
  { st with tokens := st.tokens.map (revokeRecord tid now) }

/-- The row update applied by `RefreshTokenRepository.revoke_all_for_user`. -/
def revokeAllRecord (uid : Nat) (now : Int) (r : RefreshTokenRecord) :
    RefreshTokenRecord :=
  if r.user_id == uid && r.revoked_at.isNone then { r with revoked_at := some now }
  else r

/-- `RefreshTokenRepository.revoke_all_for_user`: set `revoked_at` on every
non-revoked row of this user. -/
def revoke_all_for_user (st : AuthState) (uid : Nat) (now : Int) : AuthState :=
  { st with tokens := st.tokens.map (revokeAllRecord uid now) }

/-- `UserRepository.update_last_login`. -/
def update_last_login (st : AuthState) (uid : Nat) (now : Int) : AuthState :=
  { st with users := st.users.map fun u =>
      if u.id == uid then { u with last_login_at := some now } else u }

/-! ## Session manager (features/auth/services.py) -/

/-- The `TokenPair` response object. -/
structure TokenPair where
  access_token : AccessToken
  refresh_token : RefreshTokenClaims
  token_type : String := "bearer"
  expires_in : Int := 60 * ACCESS_TOKEN_EXPIRE_MINUTES
deriving DecidableEq, Repr

/-- `AuthService._generate_token_pair`: issue access + refresh tokens and
persist a new refresh session record keyed by the fresh correlation id. -/
def generate_token_pair (st : AuthState) (user : User) (now : Int) :
    TokenPair × AuthState :=
  let access := create_access_token user.id user.phone_number user.is_active now
  let tid := st.nextTokenId
  let rtok := create_refresh_token user.id tid now
  let record : RefreshTokenRecord :=
    { user_id := user.id, token_id := tid, token_hash := hash_token rtok,
      expires_at := now + 86400 * REFRESH_TOKEN_EXPIRE_DAYS, created_at := now }
  ({ access_token := access, refresh_token := rtok },
   { st with tokens := st.tokens ++ [record], nextTokenId := st.nextTokenId + 1 })

/-- The success tail of `AuthService.login` (steps 6-9): reset the rate
limiter, revoke all prior refresh tokens, issue the new pair, stamp
`last_login_at`. -/
def loginFinalize (st : AuthState) (nrm : String) (user : User) (now : Int) :
    (User × TokenPair) × AuthState :=
  let st1 := { st with attempts := rate_limiter_reset st.attempts nrm }
  let st2 := revoke_all_for_user st1 user.id now
  let pr := generate_token_pair st2 user now
  ((user, pr.1), update_last_login pr.2 user.id now)

/-- The limiter's write-back performed by step 2 of `login`: the cleaned
window (plus the admitted attempt) is stored for the handle. -/
def rate_limit_writeback (st : AuthState) (nrm : String) (now : Int) : AuthState :=
  let stored := (check_rate_limit (lookupAttempts st.attempts nrm) now).2
  { st with attempts := setAttempts st.attempts nrm stored }

/-- `AuthService.login`.  The state is returned on every path because the
rate limiter mutates even on failure. -/
def login (st : AuthState) (phone_number password : String) (now : Int) :
    Except AppError (User × TokenPair) × AuthState :=
  let nrm := normalize_phone_number phone_number
  let rl := check_rate_limit (lookupAttempts st.attempts nrm) now
  let st1 := rate_limit_writeback st nrm now
  match rl.1 with
  | some retryAfter => (.error (rateLimitExceededError retryAfter), st1)
  | none =>
    match get_by_phone st.users nrm with
    | none => (.error invalidCredentialsError, st1)
    | some user =>
      if verify_password password user.hashed_password then
        if user.is_active then
          let r := loginFinalize st1 nrm user now
          (.ok r.1, r.2)
        else (.error accountDeactivatedError, st1)
      else (.error invalidCredentialsError, st1)

/-- `AuthService.refresh_access_token`: verify the token (signature is
modelled as always valid, expiry per PyJWT: expired when `exp < now`), look
up the non-revoked session record, re-check its stored expiry, resolve the
owner, revoke the presented record (one-time use), and issue a new pair.
No failure path mutates the state. -/
def refresh_access_token (st : AuthState) (token : RefreshTokenClaims)
    (now : Int) : Except AppError (TokenPair × AuthState) :=
  if token.exp < now then .error tokenExpiredError
  else
    match get_by_token_id st.tokens token.token_id with
    | none => .error (invalidTokenError "Token not found or revoked")
    | some db_token =>
      if db_token.expires_at < now then .error (invalidTokenError "Token expired")
      else
        match get_by_id st.users db_token.user_id with
        | none => .error userNotFoundError
        | some user =>
          if user.is_active then
            .ok (generate_token_pair (revoke st token.token_id now) user now)
          else .error userNotFoundError

/-- Well-formedness of the service state: every stored correlation id was
produced by a past value of the freshness counter, so a fresh id never
collides with a stored one.  In the source this is the (probabilistic)
uniqueness of `uuid.uuid4()`, backed by the UNIQUE index on
`refresh_tokens.token_id`. -/
def AuthState.WF (st : AuthState) : Prop :=
  ∀ r ∈ st.tokens, r.token_id < st.nextTokenId

instance (st : AuthState) : Decidable st.WF :=
  inferInstanceAs (Decidable (∀ r ∈ st.tokens, r.token_id < st.nextTokenId))

/-- Rate-limit admissibility of one call: the limiter check passes for this
handle at this time (step 2 of `login` does not raise). -/
def passes_rate_limit (st : AuthState) (phone_number : String) (now : Int) : Prop :=
  (check_rate_limit (lookupAttempts st.attempts (normalize_phone_number phone_number)) now).1 = none

instance (st : AuthState) (ph : String) (now : Int) :
    Decidable (passes_rate_limit st ph now) :=
  inferInstanceAs (Decidable (_ = none))

/-! ## Concrete fixtures used by the witnesses -/

/-- Witness fixture: the owner of a stored refresh session record. -/
def w1User : User :=
  { id := 0, phone_number := "07701", hashed_password := hash_password "Passw0rd",
    company_id := some 1 }

/-- Witness fixture: a live (non-revoked, unexpired) session record for
`w1User` with correlation id 0. -/
def w1Record : RefreshTokenRecord :=
  { user_id := 0, token_id := 0, token_hash := create_refresh_token 0 0 0,
    expires_at := 86400 * REFRESH_TOKEN_EXPIRE_DAYS, created_at := 0 }

/-- Witness fixture: state holding `w1User` and `w1Record`. -/
def w1St : AuthState :=
  { users := [w1User], tokens := [w1Record], attempts := [], nextTokenId := 1 }

/-- Witness fixture: the refresh token matching `w1Record`. -/
def w1Tok : RefreshTokenClaims := create_refresh_token 0 0 0

/-- Witness fixture: the pair issued by the first redemption of `w1Tok`. -/
def w1Pair : TokenPair := (generate_token_pair (revoke w1St 0 10) w1User 10).1

/-- Witness fixture: the state after the first redemption of `w1Tok`. -/
def w1St2 : AuthState := (generate_token_pair (revoke w1St 0 10) w1User 10).2

/-- Witness fixture: a tenant-scoped user who logs in twice. -/
def w2User : User :=
  { id := 5, phone_number := "07711", hashed_password := hash_password "Passw0rd",
    company_id := some 1, company_roles := ["viewer"] }

/-- Witness fixture: initial state for the double-login scenario. -/
def w2St : AuthState :=
  { users := [w2User], tokens := [], attempts := [], nextTokenId := 0 }

/-- Witness fixture: the pair issued by the first login (correlation id 0). -/
def w2P1 : TokenPair :=
  { access_token := create_access_token 5 "07711" true 0,
    refresh_token := create_refresh_token 5 0 0 }

/-- Witness fixture: state after the first login. -/
def w2St1 : AuthState := (login w2St "07711" "Passw0rd" 0).2

/-- Witness fixture: `w2User` as stored after the first login stamped
`last_login_at`. -/
def w2User' : User := { w2User with last_login_at := some 0 }

/-- Witness fixture: the pair issued by the second login (correlation id 1). -/
def w2P2 : TokenPair :=
  { access_token := create_access_token 5 "07711" true 100,
    refresh_token := create_refresh_token 5 1 100 }

/-- Witness fixture: state after the second login. -/
def w2St2 : AuthState := (login w2St1 "07711" "Passw0rd" 100).2

/-- Failing input for the inactive-tenant claim: an active user holding the
`viewer` company role inside a deactivated company. -/
def w3User : User :=
  { id := 3, phone_number := "07703", hashed_password := hash_password "Passw0rd",
    company_id := some 7, company_roles := ["viewer"],
    company := some { id := 7, is_active := false } }

/-- Witness fixture: an inactive user holding the system-admin role. -/
def w4User : User :=
  { id := 4, phone_number := "07704", hashed_password := hash_password "Passw0rd",
    role := .SYSTEM_ADMIN, is_active := false }

/-- Witness fixture: an active tenant user holding the `viewer` company
role. -/
def w5User : User :=
  { id := 5, phone_number := "07705", hashed_password := hash_password "Passw0rd",
    company_id := some 2, company_roles := ["viewer", "no_such_role"] }

/-- Witness fixture: a non-admin user bound to tenant 1. -/
def w6User : User :=
  { id := 6, phone_number := "07706", hashed_password := hash_password "Passw0rd",
    company_id := some 1 }

/-- Witness fixture: a platform-admin user (no tenant). -/
def w6Admin : User :=
  { id := 7, phone_number := "07707", hashed_password := hash_password "Passw0rd",
    role := .SYSTEM_ADMIN }

/-- Witness fixture: an active system admin. -/
def w5Admin : User :=
  { id := 15, phone_number := "07715", hashed_password := hash_password "Passw0rd",
    role := .SYSTEM_ADMIN }

/-- Witness fixture: the tenant context constructed for `w6User`. -/
def w6Ctx : CompanyContext :=
  { user := w6User, company_id := some 1, is_system_admin := false }

/-- Witness fixture: the tenant context constructed for `w6Admin`. -/
def w6AdminCtx : CompanyContext :=
  { user := w6Admin, company_id := none, is_system_admin := true }

/-- Rate-limit scenario fixture: the registered user being attacked. -/
def w7User : User :=
  { id := 9, phone_number := "07799", hashed_password := hash_password "Secret1A" }

/-- Rate-limit scenario fixture: initial state. -/
def w7St0 : AuthState :=
  { users := [w7User], tokens := [], attempts := [], nextTokenId := 0 }

/-- Rate-limit scenario: state after failed attempt 1 (time 0). -/
def w7St1 : AuthState := (login w7St0 "07799" "wrong" 0).2

/-- Rate-limit scenario: state after failed attempt 2 (time 1). -/
def w7St2 : AuthState := (login w7St1 "07799" "wrong" 1).2

/-- Rate-limit scenario: state after failed attempt 3 (time 2). -/
def w7St3 : AuthState := (login w7St2 "07799" "wrong" 2).2

/-- Rate-limit scenario: state after failed attempt 4 (time 3). -/
def w7St4 : AuthState := (login w7St3 "07799" "wrong" 3).2

/-- Rate-limit scenario: state after failed attempt 5 (time 4). -/
def w7St5 : AuthState := (login w7St4 "07799" "wrong" 4).2

/-- Rate-limit scenario: state after the rate-limited attempt 6 (time 5). -/
def w7St6 : AuthState := (login w7St5 "07799" "wrong" 5).2

/-- Rate-limit scenario: state after `RateLimiter.reset` for the handle. -/
def w7Reset : AuthState :=
  { w7St6 with attempts := rate_limiter_reset w7St6.attempts "07799" }

/-- Witness fixture for user-enumeration: a state with one registered user. -/
def w8User : User :=
  { id := 8, phone_number := "07708", hashed_password := hash_password "Passw0rd",
    company_id := some 1 }

/-- Witness fixture for user-enumeration. -/
def w8St : AuthState :=
  { users := [w8User], tokens := [], attempts := [], nextTokenId := 0 }

/-! ## Helper lemmas -/

/-- Membership in the accumulate-union loop of `get_all_permissions_for_user`. -/
theorem mem_foldl_union {α : Type} (f : α → Finset Permission) (l : List α)
    (init : Finset Permission) (p : Permission) :
    p ∈ l.foldl (fun acc r => acc ∪ f r) init ↔ p ∈ init ∨ ∃ r ∈ l, p ∈ f r := by
  induction l generalizing init with
  | nil => simp
  | cons a t ih =>
    simp only [List.foldl_cons, ih, Finset.mem_union, List.mem_cons]
    constructor
    · rintro ((h | h) | ⟨r, hr, hp⟩)
      · exact Or.inl h
      · exact Or.inr ⟨a, Or.inl rfl, h⟩
      · exact Or.inr ⟨r, Or.inr hr, hp⟩
    · rintro (h | ⟨r, (rfl | hr), hp⟩)
      · exact Or.inl (Or.inl h)
      · exact Or.inl (Or.inr hp)
      · exact Or.inr ⟨r, hr, hp⟩

/-- The accumulate-union loop started from the full catalog stays the full
catalog. -/
theorem foldl_union_univ {α : Type} (f : α → Finset Permission) (l : List α) :
    l.foldl (fun acc r => acc ∪ f r) Finset.univ = Finset.univ := by
  induction l with
  | nil => rfl
  | cons a t ih =>
    have hu : (Finset.univ : Finset Permission) ∪ f a = Finset.univ :=
      Finset.eq_univ_iff_forall.mpr fun p => Finset.mem_union_left _ (Finset.mem_univ p)
    rw [List.foldl_cons, hu]; exact ih

/-- `revoke` preserves the correlation id of every row. -/
theorem revokeRecord_token_id (tid : Nat) (now : Int) (r : RefreshTokenRecord) :
    (revokeRecord tid now r).token_id = r.token_id := by
  unfold revokeRecord; split <;> rfl

/-- `revoke_all_for_user` preserves the correlation id of every row. -/
theorem revokeAllRecord_token_id (uid : Nat) (now : Int) (r : RefreshTokenRecord) :
    (revokeAllRecord uid now r).token_id = r.token_id := by
  unfold revokeAllRecord; split <;> rfl

/-- `get_by_token_id` finds nothing when every row with the correlation id
is revoked. -/
theorem get_by_token_id_none (l : List RefreshTokenRecord) (tid : Nat)
    (h : ∀ r ∈ l, r.token_id = tid → r.revoked_at ≠ none) :
    get_by_token_id l tid = none := by
  unfold get_by_token_id
  rw [List.find?_eq_none]
  intro x hx hpred
  rw [Bool.and_eq_true, beq_iff_eq, Option.isNone_iff_eq_none] at hpred
  exact h x hx hpred.1 hpred.2

/-- After `revoke_all_for_user`, no row of that user is still non-revoked. -/
theorem filter_nonrevoked_revokeAll (l : List RefreshTokenRecord) (uid : Nat)
    (now : Int) :
    (l.map (revokeAllRecord uid now)).filter
      (fun r => r.user_id == uid && r.revoked_at.isNone) = [] := by
  rw [List.filter_eq_nil_iff]
  intro x hx
  obtain ⟨y, hy, rfl⟩ := List.mem_map.mp hx
  unfold revokeAllRecord
  split
  next hcond => simp
  next hcond => simpa using hcond

/-- Filtering by a conjunction never keeps more rows than filtering by the
first conjunct. -/
theorem length_filter_and_le (l : List RefreshTokenRecord)
    (p q : RefreshTokenRecord → Bool) :
    (l.filter fun a => p a && q a).length ≤ (l.filter p).length := by
  induction l with
  | nil => simp
  | cons a t ih =>
    cases hp : p a <;> cases hq : q a <;>
      simp only [List.filter_cons, hp, hq, Bool.and_self, Bool.and_false,
        Bool.and_true, Bool.false_and, Bool.true_and, if_true, if_false,
        List.length_cons] <;>
      first
        | exact ih
        | exact Nat.le_succ_of_le ih
        | exact Nat.succ_le_succ ih

/-! ## Claim theorems -/

/-- C10: on the empty permission list, `has_all_permissions` returns `True`
for every user (vacuous truth, including the null user and users whose
permission set is empty), while `has_any_permission` returns `False` for
every user. -/
theorem empty_permission_list_queries (user : Option User) :
    has_all_permissions user [] = true ∧ has_any_permission user [] = false :=
  ⟨rfl, rfl⟩

/-- C4: an identity with `active=false` resolves to the empty permission
set regardless of its role, including the system-admin role. -/
theorem inactive_user_zero_permissions (u : User) (h : u.is_active = false) :
    calculate_permissions (some u) = ∅ := by
  simp [calculate_permissions, h]

/-- Witness for C4 at an inactive system admin. -/
theorem inactive_user_zero_permissions_witness :
    w4User.is_active = false ∧ w4User.role = UserRole.SYSTEM_ADMIN ∧
    calculate_permissions (some w4User) = ∅ :=
  ⟨by decide, by decide, inactive_user_zero_permissions w4User (by decide)⟩

/-- C3 (failing input): `_calculate_permissions` never consults the tenant
record, so an active user holding the `viewer` company role inside a
deactivated company still resolves to a non-empty permission set, contrary
to the claim (and to the intent of the repository's own
`test_user_from_inactive_company_has_no_permissions`). -/
theorem inactive_tenant_nonzero_permissions :
    w3User.is_active = true ∧
    w3User.company = some { id := 7, is_active := false } ∧
    Permission.VIEW_USERS ∈ calculate_permissions (some w3User) ∧
    calculate_permissions (some w3User) ≠ ∅ := by decide

/-- C9 (counterexample): `"a+b"` contains no digit, yet it does not pass
through `normalize_phone_number` unchanged - the kept `+` makes the cleaned
form non-empty, so the cleaned form `"+"` is returned. -/
theorem normalize_phone_no_digits_counterexample :
    (∀ c ∈ "a+b".toList, c.isDigit = false) ∧
    normalize_phone_number "a+b" = "+" ∧
    normalize_phone_number "a+b" ≠ "a+b" := by decide

/-- C9 (amended): `normalize_phone_number` is idempotent, and an input in
which no character is a digit or `+` (so that stripping leaves the empty
string) is returned unchanged. -/
theorem normalize_phone_idempotent_passthrough :
    (∀ s : String,
      normalize_phone_number (normalize_phone_number s) = normalize_phone_number s) ∧
    (∀ s : String, (∀ c ∈ s.toList, phone_keep c = false) →
      normalize_phone_number s = s) := by
  constructor
  · intro s
    by_cases h : (s.toList.filter phone_keep).isEmpty
    · have h1 : normalize_phone_number s = s := by
        unfold normalize_phone_number
        rw [if_pos h]
      rw [h1]
      exact h1
    · have h1 : normalize_phone_number s = String.mk (s.toList.filter phone_keep) := by
        unfold normalize_phone_number
        rw [if_neg h]
      rw [h1]
      unfold normalize_phone_number
      have hd : (String.mk (s.toList.filter phone_keep)).toList
          = s.toList.filter phone_keep := rfl
      rw [hd]
      have hf : (s.toList.filter phone_keep).filter phone_keep
          = s.toList.filter phone_keep :=
        List.filter_eq_self.mpr fun a ha => List.of_mem_filter ha
      rw [hf, if_neg h]
  · intro s h
    have hnil : s.toList.filter phone_keep = [] :=
      List.filter_eq_nil_iff.mpr fun a ha => by simp [h a ha]
    unfold normalize_phone_number
    rw [hnil]
    rfl

/-- Witness for the amended C9 at a digit-free, plus-free handle. -/
theorem normalize_phone_idempotent_passthrough_witness :
    normalize_phone_number "ab" = "ab" :=
  normalize_phone_idempotent_passthrough.2 "ab" (by decide)

/-- C5: default-deny resolution.  A null identity yields the empty set; for
an active identity a permission is held exactly when it lies in the system
role's static set or in the static set of one of the successfully parsed
company roles (so an unmapped or unrecognized role contributes nothing, and
nothing outside the mapped sets is ever granted); an active system admin
resolves to the full catalog, and the system-admin row of the static table
is itself the full `Permission` catalog. -/
theorem default_deny_permission_resolution :
    calculate_permissions none = ∅ ∧
    (∀ u : User, u.is_active = true → ∀ p : Permission,
      (p ∈ calculate_permissions (some u) ↔
        p ∈ SYSTEM_ROLE_PERMISSIONS u.role ∨
        ∃ r ∈ u.company_roles.filterMap CompanyRole.ofValue?,
          p ∈ COMPANY_ROLE_PERMISSIONS r)) ∧
    (∀ u : User, u.is_active = true → u.role = UserRole.SYSTEM_ADMIN →
      calculate_permissions (some u) = Finset.univ) ∧
    SYSTEM_ROLE_PERMISSIONS UserRole.SYSTEM_ADMIN = Finset.univ := by
  have hadmin : SYSTEM_ROLE_PERMISSIONS UserRole.SYSTEM_ADMIN = Finset.univ := by
    decide
  have hcalc : ∀ u : User, u.is_active = true →
      calculate_permissions (some u) =
        get_all_permissions_for_user u.role
          (u.company_roles.filterMap CompanyRole.ofValue?) := by
    intro u hu
    simp [calculate_permissions, hu]
  refine ⟨rfl, ?_, ?_, hadmin⟩
  · intro u hu p
    rw [hcalc u hu]
    unfold get_all_permissions_for_user get_permissions_for_system_role
      get_permissions_for_company_role
    exact mem_foldl_union _ _ _ _
  · intro u hu hr
    rw [hcalc u hu]
    unfold get_all_permissions_for_user get_permissions_for_system_role
    rw [hr, hadmin]
    exact foldl_union_univ _ _

/-- Witness for C5 at an active viewer carrying one unrecognized role
string, and at an active system admin. -/
theorem default_deny_permission_resolution_witness :
    (Permission.VIEW_USERS ∈ calculate_permissions (some w5User) ↔
      Permission.VIEW_USERS ∈ SYSTEM_ROLE_PERMISSIONS w5User.role ∨
      ∃ r ∈ w5User.company_roles.filterMap CompanyRole.ofValue?,
        Permission.VIEW_USERS ∈ COMPANY_ROLE_PERMISSIONS r) ∧
    calculate_permissions (some w5Admin) = Finset.univ :=
  ⟨default_deny_permission_resolution.2.1 w5User (by decide) Permission.VIEW_USERS,
   default_deny_permission_resolution.2.2.1 w5Admin (by decide) (by decide)⟩

/-- C6: a platform admin passes `ensure_company_access` for every resource
tenant including `null`; a non-admin with tenant `t1` (whose context was
successfully constructed) passes exactly for `some t1` and gets the 403
`Forbidden` for every other tenant and for `null`. -/
theorem tenant_isolation_ensure_company_access (u : User) (ctx : CompanyContext)
    (h : CompanyContext.ofUser u = .ok ctx) :
    (∀ t1, u.role ≠ UserRole.SYSTEM_ADMIN → u.company_id = some t1 →
      (∀ t2, t2 ≠ t1 →
        ctx.ensure_company_access (some t2) = .error forbiddenError) ∧
      ctx.ensure_company_access none = .error forbiddenError ∧
      ctx.ensure_company_access (some t1) = .ok ()) ∧
    (u.role = UserRole.SYSTEM_ADMIN →
      ∀ res, ctx.ensure_company_access res = .ok ()) := by
  cases hc : (!(u.role == UserRole.SYSTEM_ADMIN) && u.company_id.isNone) with
  | true => simp [CompanyContext.ofUser, hc] at h
  | false =>
    simp only [CompanyContext.ofUser, hc, Bool.false_eq_true, if_false,
      Except.ok.injEq] at h
    subst h
    constructor
    · intro t1 hr ht1
      have hb : (u.role == UserRole.SYSTEM_ADMIN) = false := by
        simpa using hr
      refine ⟨?_, ?_, ?_⟩
      · intro t2 hne
        simp [CompanyContext.ensure_company_access, hb, ht1, hne]
      · simp [CompanyContext.ensure_company_access, hb, ht1]
      · simp [CompanyContext.ensure_company_access, hb, ht1]
    · intro hr res
      have hb : (u.role == UserRole.SYSTEM_ADMIN) = true := by simp [hr]
      simp [CompanyContext.ensure_company_access, hb]

/-- Witness for C6 at a tenant-1 user and at a platform admin. -/
theorem tenant_isolation_ensure_company_access_witness :
    (w6Ctx.ensure_company_access (some 2) = .error forbiddenError ∧
     w6Ctx.ensure_company_access none = .error forbiddenError ∧
     w6Ctx.ensure_company_access (some 1) = .ok ()) ∧
    w6AdminCtx.ensure_company_access none = .ok () := by
  have h1 := (tenant_isolation_ensure_company_access w6User w6Ctx (by decide)).1
    1 (by decide) (by decide)
  have h2 := (tenant_isolation_ensure_company_access w6Admin w6AdminCtx
    (by decide)).2 (by decide) none
  exact ⟨⟨h1.1 2 (by decide), h1.2.1, h1.2.2⟩, h2⟩

/-- When the limiter check for the handle is at its threshold, `login`
fails with `RateLimitExceeded` - irrespective of everything past step 2, in
particular of the user store. -/
theorem login_rate_limited (st : AuthState) (ph pw : String) (now r : Int)
    (h : (check_rate_limit (lookupAttempts st.attempts (normalize_phone_number ph))
        now).1 = some r) :
    (login st ph pw now).1 = .error (rateLimitExceededError r) := by
  simp [login, h]

/-- C7: with the configured threshold of 5 attempts per 60-minute window,
failed login attempts 1-5 for a handle pass the rate-limit check and reach
credential verification (they fail with `InvalidCredentials`, which the
code raises only at credential checking); attempt 6 inside the window fails
with `RateLimitExceeded` whose `retry_after` is strictly positive, whatever
the user store holds (no identity lookup is involved); after
`RateLimiter.reset` for the handle, the next attempt passes the check and
reaches credential verification again. -/
theorem login_rate_limit_five_per_hour :
    (login w7St0 "07799" "wrong" 0).1 = .error invalidCredentialsError ∧
    (login w7St1 "07799" "wrong" 1).1 = .error invalidCredentialsError ∧
    (login w7St2 "07799" "wrong" 2).1 = .error invalidCredentialsError ∧
    (login w7St3 "07799" "wrong" 3).1 = .error invalidCredentialsError ∧
    (login w7St4 "07799" "wrong" 4).1 = .error invalidCredentialsError ∧
    (∀ anyUsers : List User,
      (login { w7St5 with users := anyUsers } "07799" "wrong" 5).1 =
        .error (rateLimitExceededError 3595)) ∧
    (rateLimitExceededError 3595).retry_after = some 3595 ∧ (0 : Int) < 3595 ∧
    (login w7Reset "07799" "wrong" 6).1 = .error invalidCredentialsError := by
  refine ⟨by decide, by decide, by decide, by decide, by decide, ?_,
    by decide, by decide, by decide⟩
  intro anyUsers
  exact login_rate_limited _ "07799" "wrong" 5 3595
    (show (check_rate_limit (lookupAttempts w7St5.attempts
      (normalize_phone_number "07799")) 5).1 = some 3595 by decide)

/-- C8: below the rate limit, a login with a handle matching no identity
and a login with an existing handle but a non-matching password both fail
with the identical `InvalidCredentials` error - same code, same message -
so the two causes are indistinguishable to the caller. -/
theorem login_failure_indistinguishable
    (st1 st2 : AuthState) (ph1 pw1 ph2 pw2 : String) (n1 n2 : Int) (u : User)
    (h1 : passes_rate_limit st1 ph1 n1)
    (h2 : get_by_phone st1.users (normalize_phone_number ph1) = none)
    (h3 : passes_rate_limit st2 ph2 n2)
    (h4 : get_by_phone st2.users (normalize_phone_number ph2) = some u)
    (h5 : verify_password pw2 u.hashed_password = false) :
    (login st1 ph1 pw1 n1).1 = .error invalidCredentialsError ∧
    (login st2 ph2 pw2 n2).1 = .error invalidCredentialsError ∧
    (login st1 ph1 pw1 n1).1 = (login st2 ph2 pw2 n2).1 := by
  unfold passes_rate_limit at h1 h3
  have e1 : (login st1 ph1 pw1 n1).1 = .error invalidCredentialsError := by
    simp [login, h1, h2]
  have e2 : (login st2 ph2 pw2 n2).1 = .error invalidCredentialsError := by
    simp [login, h3, h4, h5]
  exact ⟨e1, e2, e1.trans e2.symm⟩

/-- Witness for C8: in one store, an unknown handle and a known handle with
a wrong password produce literally equal errors. -/
theorem login_failure_indistinguishable_witness :
    (login w8St "07700" "x" 0).1 = .error invalidCredentialsError ∧
    (login w8St "07708" "x" 0).1 = .error invalidCredentialsError ∧
    (login w8St "07700" "x" 0).1 = (login w8St "07708" "x" 0).1 :=
  login_failure_indistinguishable w8St w8St "07700" "x" "07708" "x" 0 0 w8User
    (by decide) (by decide) (by decide) (by decide) (by decide)

/-- Inversion of a successful `refresh_access_token`: a non-revoked session
record with the presented correlation id was found, its owner was resolved,
and the result is exactly the rotation (revoke, then issue) applied to the
state. -/
theorem refresh_ok_inv (st : AuthState) (tok : RefreshTokenClaims) (now : Int)
    (pair : TokenPair) (st' : AuthState)
    (h : refresh_access_token st tok now = .ok (pair, st')) :
    ∃ db user, get_by_token_id st.tokens tok.token_id = some db ∧
      get_by_id st.users db.user_id = some user ∧
      (pair, st') = generate_token_pair (revoke st tok.token_id now) user now := by
  unfold refresh_access_token at h
  split at h
  · exact absurd h (by simp)
  · split at h
    next hfind => exact absurd h (by simp)
    next db hfind =>
      split at h
      · exact absurd h (by simp)
      · split at h
        next huser => exact absurd h (by simp)
        next user huser =>
          split at h
          next hactive =>
            rw [Except.ok.injEq] at h
            exact ⟨db, user, hfind, huser, h.symm⟩
          next hactive => exact absurd h (by simp)

/-- C1: refresh-token rotation is strictly one-time use.  If a redemption
of a token succeeds from a well-formed state, then (a) redeeming the same
token again - at any later instant at which the token itself has not
expired - fails with `InvalidToken("Token not found or revoked")`, because
the presented record's `revoked_at` was set and `get_by_token_id` requires
a non-revoked record, and (b) the refresh token returned by the successful
redemption carries a correlation id different from the presented one. -/
theorem refresh_token_single_use (st : AuthState) (tok : RefreshTokenClaims)
    (now now' : Int) (pair : TokenPair) (st' : AuthState)
    (hwf : st.WF)
    (h : refresh_access_token st tok now = .ok (pair, st'))
    (hexp : ¬ tok.exp < now') :
    refresh_access_token st' tok now' =
      .error (invalidTokenError "Token not found or revoked") ∧
    pair.refresh_token.token_id ≠ tok.token_id := by
  obtain ⟨db, user, hfind, huser, heq⟩ := refresh_ok_inv st tok now pair st' h
  have hdbmem : db ∈ st.tokens := List.mem_of_find?_eq_some hfind
  have hdbpred := List.find?_some hfind
  rw [Bool.and_eq_true, beq_iff_eq] at hdbpred
  have htid_lt : tok.token_id < st.nextTokenId := hdbpred.1 ▸ hwf db hdbmem
  have hst : st' = (generate_token_pair (revoke st tok.token_id now) user now).2 :=
    congrArg Prod.snd heq
  have hpair : pair = (generate_token_pair (revoke st tok.token_id now) user now).1 :=
    congrArg Prod.fst heq
  have hptid : pair.refresh_token.token_id = st.nextTokenId := by rw [hpair]; rfl
  have htokens : st'.tokens = st.tokens.map (revokeRecord tok.token_id now) ++
      [{ user_id := user.id, token_id := st.nextTokenId,
         token_hash := hash_token (create_refresh_token user.id st.nextTokenId now),
         expires_at := now + 86400 * REFRESH_TOKEN_EXPIRE_DAYS, created_at := now,
         revoked_at := none }] := by rw [hst]; rfl
  constructor
  · unfold refresh_access_token
    rw [if_neg hexp]
    have hnone : get_by_token_id st'.tokens tok.token_id = none := by
      apply get_by_token_id_none
      intro r hr hrtid
      rw [htokens] at hr
      rcases List.mem_append.mp hr with hr1 | hr2
      · obtain ⟨y, hy, rfl⟩ := List.mem_map.mp hr1
        by_cases hcase : y.token_id == tok.token_id
        · simp [revokeRecord, hcase]
        · rw [revokeRecord_token_id] at hrtid
          exact absurd (beq_iff_eq.mpr hrtid) hcase
      · rw [List.mem_singleton] at hr2
        subst hr2
        have hx : st.nextTokenId = tok.token_id := hrtid
        exact absurd hx (by omega)
    rw [hnone]
  · rw [hptid]
    omega

/-- Witness for C1: a concrete redemption followed by a replay of the same
token. -/
theorem refresh_token_single_use_witness :
    refresh_access_token w1St2 w1Tok 10 =
      .error (invalidTokenError "Token not found or revoked") ∧
    w1Pair.refresh_token.token_id ≠ w1Tok.token_id :=
  refresh_token_single_use w1St w1Tok 10 10 w1Pair w1St2
    (by decide) (by decide) (by decide)

/-- Inversion of a successful `login`: the result is exactly the success
tail (`loginFinalize`) applied to the state after the limiter's write-back.
-/
theorem login_ok_inv (st : AuthState) (ph pw : String) (now : Int)
    (u : User) (pair : TokenPair) (st' : AuthState)
    (h : login st ph pw now = (.ok (u, pair), st')) :
    ((u, pair), st') =
      loginFinalize (rate_limit_writeback st (normalize_phone_number ph) now)
        (normalize_phone_number ph) u now := by
  simp only [login] at h
  split at h
  · exact absurd h (by simp)
  · split at h
    next huser => exact absurd h (by simp)
    next user huser =>
      split at h
      next hpw =>
        split at h
        next hact =>
          rw [Prod.mk.injEq, Except.ok.injEq] at h
          obtain ⟨h1, h2⟩ := h
          have huu : user = u := congrArg Prod.fst h1
          subst huu
          rw [← h1, ← h2]
        next hact => exact absurd h (by simp)
      next hpw => exact absurd h (by simp)

/-- The state and pair shape of a successful `login`: the issued refresh
token carries the fresh correlation id, the counter advances, and the
token store becomes "every prior non-revoked row of the user revoked, plus
the one new record". -/
theorem login_ok_state (st : AuthState) (ph pw : String) (now : Int)
    (u : User) (pair : TokenPair) (st' : AuthState)
    (h : login st ph pw now = (.ok (u, pair), st')) :
    pair.refresh_token.token_id = st.nextTokenId ∧
    st'.nextTokenId = st.nextTokenId + 1 ∧
    st'.tokens = st.tokens.map (revokeAllRecord u.id now) ++
      [{ user_id := u.id, token_id := st.nextTokenId,
         token_hash := hash_token (create_refresh_token u.id st.nextTokenId now),
         expires_at := now + 86400 * REFRESH_TOKEN_EXPIRE_DAYS, created_at := now,
         revoked_at := none }] := by
  have hinv := login_ok_inv st ph pw now u pair st' h
  have hp : pair = ((loginFinalize
      (rate_limit_writeback st (normalize_phone_number ph) now)
      (normalize_phone_number ph) u now).1).2 :=
    congrArg (fun x => x.1.2) hinv
  have hs : st' = (loginFinalize
      (rate_limit_writeback st (normalize_phone_number ph) now)
      (normalize_phone_number ph) u now).2 :=
    congrArg Prod.snd hinv
  refine ⟨?_, ?_, ?_⟩
  · rw [hp]; rfl
  · rw [hs]; rfl
  · rw [hs]; rfl

/-- C2: the single-active-session invariant.  (a) A successful login leaves
exactly one non-revoked refresh session record for the identity (hence at
most one non-revoked, non-expired one): every prior non-revoked record is
revoked before the new pair is persisted.  (b) After two sequential
successful logins of the same identity from a well-formed state, redeeming
the refresh token of the first login fails with
`InvalidToken("Token not found or revoked")`. -/
theorem login_single_active_session :
    (∀ (st : AuthState) (ph pw : String) (now : Int) (u : User)
      (pair : TokenPair) (st' : AuthState),
      login st ph pw now = (.ok (u, pair), st') →
      (st'.tokens.filter fun r => r.user_id == u.id && r.revoked_at.isNone).length
          = 1 ∧
      (st'.tokens.filter fun r => r.user_id == u.id && r.revoked_at.isNone &&
          decide (now < r.expires_at)).length ≤ 1) ∧
    (∀ (st st1 st2 : AuthState) (ph1 pw1 ph2 pw2 : String) (n1 n2 n3 : Int)
      (u1 u2 : User) (p1 p2 : TokenPair),
      st.WF →
      login st ph1 pw1 n1 = (.ok (u1, p1), st1) →
      login st1 ph2 pw2 n2 = (.ok (u2, p2), st2) →
      u2.id = u1.id →
      ¬ p1.refresh_token.exp < n3 →
      refresh_access_token st2 p1.refresh_token n3 =
        .error (invalidTokenError "Token not found or revoked")) := by
  constructor
  · intro st ph pw now u pair st' h
    obtain ⟨-, -, htok⟩ := login_ok_state st ph pw now u pair st' h
    have h1 : (st'.tokens.filter fun r =>
        r.user_id == u.id && r.revoked_at.isNone).length = 1 := by
      rw [htok, List.filter_append, filter_nonrevoked_revokeAll]
      simp
    refine ⟨h1, ?_⟩
    have h2 := length_filter_and_le st'.tokens
      (fun r => r.user_id == u.id && r.revoked_at.isNone)
      (fun r => decide (now < r.expires_at))
    rw [h1] at h2
    exact h2
  · intro st st1 st2 ph1 pw1 ph2 pw2 n1 n2 n3 u1 u2 p1 p2 hwf h1 h2 hid hexp
    obtain ⟨hp1tid, hnext1, htok1⟩ := login_ok_state st ph1 pw1 n1 u1 p1 st1 h1
    obtain ⟨hp2tid, hnext2, htok2⟩ := login_ok_state st1 ph2 pw2 n2 u2 p2 st2 h2
    unfold refresh_access_token
    rw [if_neg hexp]
    have hnone : get_by_token_id st2.tokens p1.refresh_token.token_id = none := by
      apply get_by_token_id_none
      intro r hr hrtid
      rw [htok2] at hr
      rcases List.mem_append.mp hr with hr | hr
      · obtain ⟨y, hy, rfl⟩ := List.mem_map.mp hr
        rw [htok1] at hy
        rcases List.mem_append.mp hy with hy | hy
        · obtain ⟨z, hz, rfl⟩ := List.mem_map.mp hy
          have hzlt : z.token_id < st.nextTokenId := hwf z hz
          rw [revokeAllRecord_token_id, revokeAllRecord_token_id, hp1tid] at hrtid
          omega
        · rw [List.mem_singleton] at hy
          subst hy
          unfold revokeAllRecord
          rw [if_pos (by simp [hid])]
          simp
      · rw [List.mem_singleton] at hr
        subst hr
        have hx : st1.nextTokenId = p1.refresh_token.token_id := hrtid
        rw [hp1tid] at hx
        omega
    rw [hnone]

/-- Witness for C2: the concrete double-login scenario; after the second
login exactly one live record remains and the first login's refresh token
is rejected. -/
theorem login_single_active_session_witness :
    (w2St1.tokens.filter fun r =>
      r.user_id == w2User.id && r.revoked_at.isNone).length = 1 ∧
    refresh_access_token w2St2 w2P1.refresh_token 200 =
      .error (invalidTokenError "Token not found or revoked") :=
  ⟨(login_single_active_session.1 w2St "07711" "Passw0rd" 0 w2User w2P1 w2St1
      (by decide)).1,
   login_single_active_session.2 w2St w2St1 w2St2 "07711" "Passw0rd" "07711"
     "Passw0rd" 0 100 200 w2User w2User' w2P1 w2P2
     (by decide) (by decide) (by decide) (by decide) (by decide)⟩
